import Mathlib

/-
Shallow embedding of the shop backend (Django project under
src/Desktop/myproject): data model (shop/models.py), serializers
(shop/serializers.py) and request handlers (shop/views.py).

Machine conventions:
* JSON response bodies are association lists of string keys and simple values.
* DecimalField(max_digits=10, decimal_places=2) prices are carried as an
  integer count of hundredths once parsed from the request string.
* Timestamps are abstract Nat instants supplied by the server clock.
* Database errors (a NOT NULL constraint violation on an insert) surface as
  an Except error, matching an unhandled IntegrityError in the handler.
-/

namespace Shop

/-- Simple JSON values appearing in response bodies. -/
inductive JVal where
  | str (s : String)
  | num (n : Int)
  | bool (b : Bool)
  | null
  deriving DecidableEq

/-- A JSON object: ordered association list of fields. -/
abbrev JObj := List (String × JVal)

/-- An HTTP response: status code and JSON body (rest_framework.response.Response). -/
structure Response where
  status : Nat
  body : JObj
  deriving DecidableEq

/-- Modelled from the spec: Django's create_user (not under src/) stores the
credential "only as a salted hash"; we model the hasher output as an opaque
value pairing the salt with the hashed input, under a dedicated constructor
distinct from plain strings. -/
inductive PasswordHash where
  | make (salt : String) (raw : String)
  deriving DecidableEq

/-- Modelled from the spec: password verification performed by Django's
authenticate (not under src/) succeeds exactly when the supplied raw
credential matches the one the stored salted hash was derived from. -/
def checkPassword (raw : String) : PasswordHash → Bool
  | .make _ r => r == raw

/-- Row of django.contrib.auth.models.User as used by this project:
id, username, and the hashed credential. -/
structure UserRec where
  id : Nat
  username : String
  password : PasswordHash
  deriving DecidableEq

/-- Row of shop.models.Product: name (CharField max_length=255),
price (DecimalField max_digits=10 decimal_places=2, held in hundredths),
user (ForeignKey to User, on_delete=CASCADE). -/
structure Product where
  id : Nat
  name : String
  price : Int
  user : Nat
  deriving DecidableEq

/-- Row of shop.models.Sale: product and user foreign keys (both
on_delete=CASCADE) and sale_date (DateTimeField auto_now_add=True). -/
structure Sale where
  id : Nat
  product : Nat
  user : Nat
  sale_date : Nat
  deriving DecidableEq

/-- Row of shop.models.UserLoginLog: user foreign key (on_delete=CASCADE),
username (CharField max_length=150), success flag, timestamp
(auto_now_add=True). The user column value is carried as an Option; whether
NULL is accepted is decided by the declared nullability below. -/
structure UserLoginLog where
  id : Nat
  user : Option Nat
  username : String
  success : Bool
  timestamp : Nat
  deriving DecidableEq

/-- Nullability of UserLoginLog.user as declared in shop/models.py line 10:
`user = models.ForeignKey(User, on_delete=models.CASCADE)` — a Django
ForeignKey defaults to null=False, so the column is NOT NULL. -/
def userLoginLog_user_nullable : Bool := false

/-- The persistent store: one table per model plus monotone autoincrement
primary-key counters. -/
structure DB where
  users : List UserRec
  products : List Product
  sales : List Sale
  loginLogs : List UserLoginLog
  nextUserId : Nat
  nextProductId : Nat
  nextSaleId : Nat
  nextLogId : Nat
  deriving DecidableEq

/-- Database-level errors surfaced to handlers as exceptions. -/
inductive DbError where
  | notNullViolation (table field : String)
  deriving DecidableEq

/-- Insert a UserLoginLog row (UserLoginLog.objects.create in views.py).
The insert enforces the NOT NULL constraint on the user column that follows
from the model declaration. -/
def insertLoginLog (db : DB) (user : Option Nat) (username : String)
    (success : Bool) (now : Nat) : Except DbError DB :=
  if user.isNone && !userLoginLog_user_nullable then
    .error (.notNullViolation "shop_userloginlog" "user")
  else
    .ok { db with
          loginLogs := db.loginLogs ++ [⟨db.nextLogId, user, username, success, now⟩],
          nextLogId := db.nextLogId + 1 }

/-- Look a user up by username. -/
def findUserByName (db : DB) (username : String) : Option UserRec :=
  db.users.find? (fun u => u.username == username)

/-- Modelled from the spec: Django's authenticate (not under src/) — returns
the user when the username exists and the credential verifies against the
stored salted hash, otherwise None ("Credential check fails or user not
found"). -/
def authenticate (db : DB) (username password : String) : Option UserRec :=
  match findUserByName db username with
  | none => none
  | some u => if checkPassword password u.password then some u else none

/-- The JSON body of a login POST: request.data.get returns none when a key
is absent. -/
structure LoginRequest where
  username : Option String
  password : Option String
  deriving DecidableEq

/-- Python falsiness of request.data.get(key): None (absent) or the empty
string make `not username` true in views.py. -/
def blankField : Option String → Bool
  | none => true
  | some s => s.isEmpty

/-- UserLoginView.post (shop/views.py): extract username and password, guard
on missing fields, authenticate, log the attempt, and on success establish a
session. The result carries the response, the new store, and the session
(the user id passed to django.contrib.auth.login), or a database error when
an insert violates a constraint. -/
def userLoginPost (db : DB) (now : Nat) (req : LoginRequest) :
    Except DbError (Response × DB × Option Nat) :=
  if blankField req.username || blankField req.password then
    .ok ({ status := 400,
           body := [("error", .str "Username and password are required")] },
         db, none)
  else
    match authenticate db (req.username.getD "") (req.password.getD "") with
    | none =>
      match insertLoginLog db none (req.username.getD "") false now with
      | .error e => .error e
      | .ok db' =>
        .ok ({ status := 400, body := [("error", .str "Invalid credentials")] },
             db', none)
    | some user =>
      match insertLoginLog db (some user.id) (req.username.getD "") true now with
      | .error e => .error e
      | .ok db' =>
        .ok ({ status := 200, body := [("message", .str "Login successful")] },
             db', some user.id)

/-- UserSerializer output (shop/serializers.py): fields id, username,
password with password write_only, so the serialized representation holds
only id and username. -/
def serializeUser (u : UserRec) : JObj :=
  [("id", .num u.id), ("username", .str u.username)]

/-- The JSON body of a user-registration POST. -/
structure UserCreateBody where
  username : String
  password : String
  deriving DecidableEq

/-- UserCreateView (generics.CreateAPIView with UserSerializer): validates
username uniqueness (the model's unique constraint surfaces through the
serializer), then UserSerializer.create calls create_user, which stores the
salted hash of the credential; the 201 response body is the serializer
output, which omits the write-only password. -/
def userCreatePost (db : DB) (b : UserCreateBody) (salt : String) :
    Response × DB :=
  if (findUserByName db b.username).isSome then
    ({ status := 400,
       body := [("username", .str "A user with that username already exists.")] },
     db)
  else
    ({ status := 201,
       body := serializeUser ⟨db.nextUserId, b.username, .make salt b.password⟩ },
     { db with
       users := db.users ++ [⟨db.nextUserId, b.username, .make salt b.password⟩],
       nextUserId := db.nextUserId + 1 })

/-- Look a product up by primary key (get_object_or_404(Product, pk=pk)). -/
def findProduct (db : DB) (pk : Nat) : Option Product :=
  db.products.find? (fun p => p.id == pk)

/-- ProductSerializer output (shop/serializers.py): fields id, name, price,
user. -/
def serializeProduct (p : Product) : JObj :=
  [("id", .num p.id), ("name", .str p.name),
   ("price", .num p.price), ("user", .num p.user)]

/-- The 404 response produced when get_object_or_404 raises Http404. -/
def resp404 : Response :=
  { status := 404, body := [("detail", .str "Not found.")] }

/-- The JSON body of a product POST or PUT: each field may be absent. The
price arrives as the raw decimal string of the JSON payload. -/
structure ProductBody where
  name : Option String
  price : Option String
  user : Option Nat
  deriving DecidableEq

/-- Read a nonempty run of decimal digits as a number; any non-digit
character fails the parse. -/
def parseDigitsAux : List Char → Nat → Option Nat
  | [], acc => some acc
  | c :: cs, acc =>
    if c.isDigit then parseDigitsAux cs (acc * 10 + (c.toNat - 48))
    else none

/-- Interpret a character list as a nonempty decimal digit string. -/
def parseDigits : List Char → Option Nat
  | [] => none
  | cs => parseDigitsAux cs 0

/-- Split a character list at the first point character, when there is
one. -/
def splitOnDot : List Char → List Char × Option (List Char)
  | [] => ([], none)
  | c :: cs =>
    if c = '.' then ([], some cs)
    else
      match splitOnDot cs with
      | (w, rest) => (c :: w, rest)

/-- Parse a decimal string under DecimalField(max_digits=10,
decimal_places=2): an integer part of at most 8 digits, optionally followed
by a point and one or two fraction digits; result in hundredths. -/
def parsePrice (s : String) : Option Int :=
  match splitOnDot s.data with
  | (w, none) =>
    match parseDigits w with
    | some n => if w.length ≤ 8 then some ((n : Int) * 100) else none
    | none => none
  | (w, some f) =>
    match parseDigits w, parseDigits f with
    | some n, some fn =>
      if w.length ≤ 8 && (f.length == 1 || f.length == 2) then
        some ((n : Int) * 100 + (fn : Int) * (if f.length == 1 then 10 else 1))
      else none
    | _, _ => none

/-- Does a user row with this primary key exist (PrimaryKeyRelatedField
validation of the user field)? -/
def userExists (db : DB) (uid : Nat) : Bool :=
  db.users.any (fun u => u.id == uid)

/-- Field-level validation of a product body by ProductSerializer.is_valid:
each present field is checked against its model constraints; absent fields
are errors only when the serializer is not partial (requireAll). The result
is the field-to-message error mapping returned as serializer.errors. -/
def productFieldErrors (db : DB) (b : ProductBody) (requireAll : Bool) :
    List (String × String) :=
  (match b.name with
   | none => if requireAll then [("name", "This field is required.")] else []
   | some s =>
     if s.length ≤ 255 && !s.isEmpty then []
     else [("name", "Invalid name.")]) ++
  (match b.price with
   | none => if requireAll then [("price", "This field is required.")] else []
   | some s =>
     if (parsePrice s).isSome then []
     else [("price", "A valid number is required.")]) ++
  (match b.user with
   | none => if requireAll then [("user", "This field is required.")] else []
   | some uid =>
     if userExists db uid then []
     else [("user", "Object does not exist.")])

/-- Render serializer.errors as the JSON body of a 400 response. -/
def errorsToBody (errs : List (String × String)) : JObj :=
  errs.map (fun e => (e.fst, JVal.str e.snd))

/-- Apply a validated partial body to a product row (serializer.save on a
partial ProductSerializer): a supplied field takes its new value, an absent
field keeps its previous value. -/
def applyProductBody (p : Product) (b : ProductBody) : Product :=
  { p with
    name := match b.name with | some s => s | none => p.name,
    price := match b.price with
             | some s => (parsePrice s).getD p.price
             | none => p.price,
    user := b.user.getD p.user }

/-- Persist an updated product row in place. -/
def updateProduct (db : DB) (p' : Product) : DB :=
  { db with products := db.products.map (fun q => if q.id == p'.id then p' else q) }

/-- ProductDetailView.get (shop/views.py): 404 when the id is absent, else
200 with the serialized product. -/
def productDetailGet (db : DB) (pk : Nat) : Response :=
  match findProduct db pk with
  | none => resp404
  | some p => { status := 200, body := serializeProduct p }

/-- ProductDetailView.put (shop/views.py): 404 when the id is absent; else
validate with partial=True, save and return 200 with the updated
serialization when valid, else return serializer.errors with 400 and leave
the store untouched. -/
def productDetailPut (db : DB) (pk : Nat) (b : ProductBody) : Response × DB :=
  match findProduct db pk with
  | none => (resp404, db)
  | some p =>
    if (productFieldErrors db b false).isEmpty then
      ({ status := 200, body := serializeProduct (applyProductBody p b) },
       updateProduct db (applyProductBody p b))
    else
      ({ status := 400, body := errorsToBody (productFieldErrors db b false) }, db)

/-- ProductDetailView.delete (shop/views.py): 404 when the id is absent;
else delete the row (cascading to Sale rows that reference it, per
on_delete=CASCADE) and return 204 with a JSON message body. -/
def productDetailDelete (db : DB) (pk : Nat) : Response × DB :=
  match findProduct db pk with
  | none => (resp404, db)
  | some _ =>
    ({ status := 204,
       body := [("message", .str "Product deleted successfully.")] },
     { db with
       products := db.products.filter (fun q => !(q.id == pk)),
       sales := db.sales.filter (fun s => !(s.product == pk)) })

/-- ProductListView POST (generics.ListCreateAPIView with
ProductSerializer): validate the full body, persist a new row under the next
primary key and return 201 with its serialization; on validation failure
return serializer.errors with 400. -/
def productListPost (db : DB) (b : ProductBody) : Response × DB :=
  match b.name, b.price.bind parsePrice, b.user with
  | some n, some pr, some u =>
    if (productFieldErrors db b true).isEmpty then
      ({ status := 201, body := serializeProduct ⟨db.nextProductId, n, pr, u⟩ },
       { db with products := db.products ++ [⟨db.nextProductId, n, pr, u⟩],
                 nextProductId := db.nextProductId + 1 })
    else
      ({ status := 400, body := errorsToBody (productFieldErrors db b true) }, db)
  | _, _, _ =>
    ({ status := 400, body := errorsToBody (productFieldErrors db b true) }, db)

/-- The JSON body of a sale POST. A sale_date value may be present in the
payload but the serializer declares the field read-only. -/
structure SaleBody where
  product : Option Nat
  user : Option Nat
  sale_date : Option Nat
  deriving DecidableEq

/-- Does a product row with this primary key exist? -/
def productExists (db : DB) (pid : Nat) : Bool :=
  (findProduct db pid).isSome

/-- Field-level validation of a sale body by SaleSerializer: product and
user are required foreign keys; sale_date is read-only and never validated
against the payload. -/
def saleFieldErrors (db : DB) (b : SaleBody) : List (String × String) :=
  (match b.product with
   | none => [("product", "This field is required.")]
   | some pid =>
     if productExists db pid then []
     else [("product", "Object does not exist.")]) ++
  (match b.user with
   | none => [("user", "This field is required.")]
   | some uid =>
     if userExists db uid then []
     else [("user", "Object does not exist.")])

/-- SaleSerializer output (shop/serializers.py): fields id, product, user,
sale_date. -/
def serializeSale (s : Sale) : JObj :=
  [("id", .num s.id), ("product", .num s.product),
   ("user", .num s.user), ("sale_date", .num s.sale_date)]

/-- SaleCreateView (generics.CreateAPIView with SaleSerializer): validate
product and user, then persist a new row whose sale_date is the server clock
(auto_now_add=True); any sale_date in the payload is ignored because the
serializer marks the field read-only. -/
def saleCreatePost (db : DB) (now : Nat) (b : SaleBody) : Response × DB :=
  match b.product, b.user with
  | some pid, some uid =>
    if (saleFieldErrors db b).isEmpty then
      ({ status := 201, body := serializeSale ⟨db.nextSaleId, pid, uid, now⟩ },
       { db with sales := db.sales ++ [⟨db.nextSaleId, pid, uid, now⟩],
                 nextSaleId := db.nextSaleId + 1 })
    else
      ({ status := 400, body := errorsToBody (saleFieldErrors db b) }, db)
  | _, _ =>
    ({ status := 400, body := errorsToBody (saleFieldErrors db b) }, db)

/-- SaleDetailView.get (shop/views.py): 404 when the id is absent, else 200
with the serialized sale. -/
def saleDetailGet (db : DB) (pk : Nat) : Response :=
  match db.sales.find? (fun s => s.id == pk) with
  | none => resp404
  | some s => { status := 200, body := serializeSale s }

/-- Cascade semantics of deleting a User, from the on_delete=CASCADE
declarations in shop/models.py: owned Product rows go, Sale rows referencing
the user or a deleted product go, and UserLoginLog rows referencing the user
go. Reachable through the admin console wired at /admin/ in
myproject/urls.py. -/
def deleteUserCascade (db : DB) (uid : Nat) : DB :=
  let pids := (db.products.filter (fun p => p.user == uid)).map (fun p => p.id)
  { db with
    users := db.users.filter (fun u => !(u.id == uid)),
    products := db.products.filter (fun p => !(p.user == uid)),
    sales := db.sales.filter
      (fun s => !(s.user == uid) && !(pids.contains s.product)),
    loginLogs := db.loginLogs.filter (fun l => !(l.user == some uid)) }

/-- Deleting a Sale row (admin console): no model references Sale, so no
cascade. -/
def deleteSale (db : DB) (pk : Nat) : DB :=
  { db with sales := db.sales.filter (fun s => !(s.id == pk)) }

/-- Every state-relevant operation of the system: the routed API handlers
plus the admin-console row deletions. -/
inductive Op where
  | userCreate (b : UserCreateBody) (salt : String)
  | userLogin (req : LoginRequest) (now : Nat)
  | productList
  | productCreate (b : ProductBody)
  | productGet (pk : Nat)
  | productPut (pk : Nat) (b : ProductBody)
  | productDelete (pk : Nat)
  | saleCreate (b : SaleBody) (now : Nat)
  | saleGet (pk : Nat)
  | adminDeleteUser (pk : Nat)
  | adminDeleteSale (pk : Nat)
  deriving DecidableEq

/-- The store after one operation. A database error aborts the request
before any row of the failing insert is written, leaving the store
unchanged. -/
def applyOp (db : DB) : Op → DB
  | .userCreate b salt => (userCreatePost db b salt).snd
  | .userLogin req now =>
    match userLoginPost db now req with
    | .ok (_, db', _) => db'
    | .error _ => db
  | .productList => db
  | .productCreate b => (productListPost db b).snd
  | .productGet _ => db
  | .productPut pk b => (productDetailPut db pk b).snd
  | .productDelete pk => (productDetailDelete db pk).snd
  | .saleCreate b now => (saleCreatePost db now b).snd
  | .saleGet _ => db
  | .adminDeleteUser pk => deleteUserCascade db pk
  | .adminDeleteSale pk => deleteSale db pk

/-! Concrete stores used to exercise the handlers. -/

/-- A store holding one registered user (alice, id 1). -/
def dbOneUser : DB :=
  { users := [⟨1, "alice", .make "s1" "pw1"⟩], products := [], sales := [],
    loginLogs := [], nextUserId := 2, nextProductId := 1, nextSaleId := 1,
    nextLogId := 1 }

/-- A store holding one user and one successful-login audit row. -/
def dbOneLog : DB :=
  { users := [⟨1, "alice", .make "s1" "pw1"⟩], products := [], sales := [],
    loginLogs := [⟨1, some 1, "alice", true, 3⟩],
    nextUserId := 2, nextProductId := 1, nextSaleId := 1, nextLogId := 2 }

/-- A store holding one user and one product (Tea, id 1, price 2.50). -/
def dbOneProduct : DB :=
  { users := [⟨1, "alice", .make "s1" "pw1"⟩],
    products := [⟨1, "Tea", 250, 1⟩], sales := [], loginLogs := [],
    nextUserId := 2, nextProductId := 2, nextSaleId := 1, nextLogId := 1 }

/-! Frame lemmas: which tables each handler leaves untouched. -/

/-- A successful login request changes nothing but the audit log, which only
grows at the end. -/
lemma userLoginPost_frame (db : DB) (now : Nat) (req : LoginRequest)
    (r : Response) (db' : DB) (s : Option Nat)
    (h : userLoginPost db now req = .ok (r, db', s)) :
    db'.users = db.users ∧ db'.products = db.products ∧
    db'.sales = db.sales ∧ ∃ tl, db'.loginLogs = db.loginLogs ++ tl := by
  unfold userLoginPost at h
  split at h
  · simp only [Except.ok.injEq, Prod.mk.injEq] at h
    obtain ⟨-, h2, -⟩ := h
    subst h2
    exact ⟨rfl, rfl, rfl, [], (List.append_nil _).symm⟩
  · split at h
    · exact absurd
        (show (Except.error (DbError.notNullViolation "shop_userloginlog" "user") :
            Except DbError (Response × DB × Option Nat)) = .ok (r, db', s) from h)
        (fun hh => Except.noConfusion hh)
    · rename_i user heq
      have h' :
          (Except.ok
            ({ status := 200, body := [("message", JVal.str "Login successful")] },
             { db with
               loginLogs := db.loginLogs ++
                 [⟨db.nextLogId, some user.id, req.username.getD "", true, now⟩],
               nextLogId := db.nextLogId + 1 },
             some user.id) : Except DbError (Response × DB × Option Nat)) =
          .ok (r, db', s) := h
      simp only [Except.ok.injEq, Prod.mk.injEq] at h'
      obtain ⟨-, h2, -⟩ := h'
      subst h2
      exact ⟨rfl, rfl, rfl,
        [⟨db.nextLogId, some user.id, req.username.getD "", true, now⟩], rfl⟩

/-- Registration touches only the user table. -/
lemma userCreatePost_frame (db : DB) (b : UserCreateBody) (salt : String) :
    (userCreatePost db b salt).snd.products = db.products ∧
    (userCreatePost db b salt).snd.sales = db.sales ∧
    (userCreatePost db b salt).snd.loginLogs = db.loginLogs := by
  unfold userCreatePost
  split <;> exact ⟨rfl, rfl, rfl⟩

/-- Product creation touches only the product table. -/
lemma productListPost_frame (db : DB) (b : ProductBody) :
    (productListPost db b).snd.sales = db.sales ∧
    (productListPost db b).snd.loginLogs = db.loginLogs ∧
    (productListPost db b).snd.users = db.users := by
  unfold productListPost
  split
  · split <;> exact ⟨rfl, rfl, rfl⟩
  · exact ⟨rfl, rfl, rfl⟩

/-- Product update touches only the product table. -/
lemma productDetailPut_frame (db : DB) (pk : Nat) (b : ProductBody) :
    (productDetailPut db pk b).snd.sales = db.sales ∧
    (productDetailPut db pk b).snd.loginLogs = db.loginLogs ∧
    (productDetailPut db pk b).snd.users = db.users := by
  unfold productDetailPut
  split
  · exact ⟨rfl, rfl, rfl⟩
  · split <;> exact ⟨rfl, rfl, rfl⟩

/-- Product deletion leaves sales either intact or restricted by the cascade
filter, and never touches the audit log. -/
lemma productDetailDelete_frame (db : DB) (pk : Nat) :
    ((productDetailDelete db pk).snd.sales = db.sales ∨
      (productDetailDelete db pk).snd.sales =
        db.sales.filter (fun s => !(s.product == pk))) ∧
    (productDetailDelete db pk).snd.loginLogs = db.loginLogs := by
  unfold productDetailDelete
  split
  · exact ⟨Or.inl rfl, rfl⟩
  · exact ⟨Or.inr rfl, rfl⟩

/-- Sale creation only appends to the sale table and leaves the audit log
untouched. -/
lemma saleCreatePost_frame (db : DB) (now : Nat) (b : SaleBody) :
    (∃ tl, (saleCreatePost db now b).snd.sales = db.sales ++ tl) ∧
    (saleCreatePost db now b).snd.loginLogs = db.loginLogs := by
  unfold saleCreatePost
  split
  · split
    · exact ⟨⟨_, rfl⟩, rfl⟩
    · exact ⟨⟨[], (List.append_nil _).symm⟩, rfl⟩
  · exact ⟨⟨[], (List.append_nil _).symm⟩, rfl⟩

/-- C1: the spec requires a failed credential check to append exactly one
LoginLog row with an absent user reference and return 400, but the insert of
a row with a NULL user violates the NOT NULL constraint that follows from
the model declaration of UserLoginLog.user, so the handler aborts with a
database error: no row is written and no 400 response is produced. -/
theorem c1_failed_login_insert_violates_not_null :
    userLoginPost dbOneUser 5 ⟨some "alice", some "wrong"⟩ =
      .error (.notNullViolation "shop_userloginlog" "user") ∧
    (applyOp dbOneUser (Op.userLogin ⟨some "alice", some "wrong"⟩ 5)).loginLogs
      = [] :=
  ⟨rfl, rfl⟩

/-- C2: a login request missing the username field or the password field (or
carrying an empty one) gets a 400 error response and the store is returned
unchanged — in particular zero LoginLog rows are written. -/
theorem c2_missing_fields_no_log (db : DB) (now : Nat) (req : LoginRequest)
    (h : (blankField req.username || blankField req.password) = true) :
    userLoginPost db now req =
      .ok ({ status := 400,
             body := [("error", .str "Username and password are required")] },
           db, none) := by
  simp [userLoginPost, h]

/-- Witness for C2 at a concrete request with an absent username. -/
theorem c2_witness :
    userLoginPost dbOneUser 3 ⟨none, some "pw1"⟩ =
      .ok ({ status := 400,
             body := [("error", JVal.str "Username and password are required")] },
           dbOneUser, none) :=
  c2_missing_fields_no_log dbOneUser 3 ⟨none, some "pw1"⟩ rfl

/-- C3: on a correct-credential login the handler does append exactly one
LoginLog row with the user reference present and success=true, establishes
the session for that user and returns 200 — but the claim's clause that
every branch except the missing-fields one writes exactly one log row fails:
the failed-authentication branch aborts on the NOT NULL constraint of
UserLoginLog.user and writes none. -/
theorem c3_success_branch_and_failed_branch :
    userLoginPost dbOneUser 7 ⟨some "alice", some "pw1"⟩ =
      .ok ({ status := 200, body := [("message", JVal.str "Login successful")] },
           { dbOneUser with
             loginLogs := [⟨1, some 1, "alice", true, 7⟩], nextLogId := 2 },
           some 1) ∧
    userLoginPost dbOneUser 7 ⟨some "alice", some "bad"⟩ =
      .error (.notNullViolation "shop_userloginlog" "user") :=
  ⟨rfl, rfl⟩

/-! Lookup lemmas about find? by primary key. -/

/-- No row with the filtered-out primary key survives the delete filter. -/
lemma find?_id_filter_none (l : List Product) (pk : Nat) :
    (l.filter (fun q => !(q.id == pk))).find? (fun q => q.id == pk) = none := by
  rw [List.find?_eq_none]
  intro x hx
  have hmem := (List.mem_filter.mp hx).2
  simp only [Bool.not_eq_true'] at hmem
  simp [hmem]

/-- Replacing, by id, the row that find? returns makes find? return the
replacement, provided the replacement keeps the id. -/
lemma find?_id_map_update (l : List Product) (pk : Nat) (p p' : Product)
    (hid : p'.id = p.id) :
    l.find? (fun q => q.id == pk) = some p →
    (l.map (fun q => if q.id == p'.id then p' else q)).find?
      (fun q => q.id == pk) = some p' := by
  induction l with
  | nil => intro h; simp [List.find?] at h
  | cons a t ih =>
    intro h
    have hfs := List.find?_some h
    have hpk : p.id = pk := beq_iff_eq.mp hfs
    have hp'id : p'.id = pk := by rw [hid, hpk]
    rw [List.map_cons]
    cases ha : a.id == pk with
    | true =>
      have haid : a.id = pk := beq_iff_eq.mp ha
      have hcond : (a.id == p'.id) = true :=
        beq_iff_eq.mpr (by rw [haid, hp'id])
      rw [if_pos hcond, List.find?_cons,
          show (p'.id == pk) = true from beq_iff_eq.mpr hp'id]
    | false =>
      have h' : t.find? (fun q => q.id == pk) = some p := by
        rw [List.find?_cons, ha] at h
        exact h
      have hane : a.id ≠ pk := beq_eq_false_iff_ne.mp ha
      have hcond : (a.id == p'.id) = false :=
        beq_eq_false_iff_ne.mpr (by rw [hp'id]; exact hane)
      rw [if_neg (by simp [hcond]), List.find?_cons, ha]
      exact ih h'

/-- Appending a row whose id is still unused makes find? by that id return
the new row. -/
lemma find?_id_append_fresh (l : List Product) (pk : Nat) (a : Product)
    (h : l.find? (fun q => q.id == pk) = none) (ha : (a.id == pk) = true) :
    (l ++ [a]).find? (fun q => q.id == pk) = some a := by
  rw [List.find?_append, h]
  simp [List.find?, ha]

/-- The 204 response of a successful product deletion, with its JSON message
body. -/
def respDeleted : Response :=
  { status := 204, body := [("message", .str "Product deleted successfully.")] }

/-- C4 counterexample: the delete response on an existing id does have
status 204 but carries a JSON message body, not the empty body the claim
states. -/
theorem c4_delete_response_body_not_empty :
    (productDetailDelete dbOneProduct 1).fst.status = 204 ∧
    (productDetailDelete dbOneProduct 1).fst.body ≠ [] :=
  ⟨rfl, by decide⟩

/-- C4 amended: DELETE on an absent id returns 404 and leaves the store
unchanged; DELETE on an existing id removes the row and returns 204 — with a
JSON message body rather than an empty body — and a subsequent GET of the
same id returns 404. -/
theorem c4_delete_then_get (db : DB) (pk : Nat) :
    (findProduct db pk = none → productDetailDelete db pk = (resp404, db)) ∧
    (findProduct db pk ≠ none →
      (productDetailDelete db pk).fst = respDeleted ∧
      findProduct (productDetailDelete db pk).snd pk = none ∧
      productDetailGet (productDetailDelete db pk).snd pk = resp404) := by
  constructor
  · intro h
    unfold productDetailDelete
    rw [h]
  · intro h
    cases hf : findProduct db pk with
    | none => exact absurd hf h
    | some p =>
      have hd : productDetailDelete db pk =
          (respDeleted,
           { db with
             products := db.products.filter (fun q => !(q.id == pk)),
             sales := db.sales.filter (fun s => !(s.product == pk)) }) := by
        unfold productDetailDelete
        rw [hf]
        rfl
      have hfind : findProduct (productDetailDelete db pk).snd pk = none := by
        rw [hd]
        exact find?_id_filter_none db.products pk
      refine ⟨by rw [hd], hfind, ?_⟩
      unfold productDetailGet
      rw [hfind]

/-- Witness for C4 at a store with product 1 and without product 99. -/
theorem c4_witness :
    productDetailDelete dbOneProduct 99 = (resp404, dbOneProduct) ∧
    (productDetailDelete dbOneProduct 1).fst = respDeleted ∧
    productDetailGet (productDetailDelete dbOneProduct 1).snd 1 = resp404 :=
  ⟨(c4_delete_then_get dbOneProduct 99).1 rfl,
   ((c4_delete_then_get dbOneProduct 1).2 (by decide)).1,
   ((c4_delete_then_get dbOneProduct 1).2 (by decide)).2.2⟩

/-- C5: PUT on an existing product with a valid body is a partial update:
the stored row is the old row with exactly the supplied fields replaced,
every unsupplied field keeps its previous value, and a read of the id sees
the updated row. -/
theorem c5_partial_update (db : DB) (pk : Nat) (p : Product) (b : ProductBody)
    (hp : findProduct db pk = some p)
    (hv : (productFieldErrors db b false).isEmpty = true) :
    productDetailPut db pk b =
      ({ status := 200, body := serializeProduct (applyProductBody p b) },
       updateProduct db (applyProductBody p b)) ∧
    findProduct (updateProduct db (applyProductBody p b)) pk =
      some (applyProductBody p b) ∧
    (b.name = none → (applyProductBody p b).name = p.name) ∧
    (b.price = none → (applyProductBody p b).price = p.price) ∧
    (b.user = none → (applyProductBody p b).user = p.user) ∧
    (∀ s, b.name = some s → (applyProductBody p b).name = s) ∧
    (∀ u, b.user = some u → (applyProductBody p b).user = u) ∧
    (∀ s v, b.price = some s → parsePrice s = some v →
      (applyProductBody p b).price = v) := by
  refine ⟨?_, ?_, ?_, ?_, ?_, ?_, ?_, ?_⟩
  · unfold productDetailPut
    rw [hp]
    simp [hv]
  · exact find?_id_map_update db.products pk p (applyProductBody p b) rfl hp
  · intro h; simp [applyProductBody, h]
  · intro h; simp [applyProductBody, h]
  · intro h; simp [applyProductBody, h]
  · intro s hs; simp [applyProductBody, hs]
  · intro u hu; simp [applyProductBody, hu]
  · intro s v hs hpv; simp [applyProductBody, hs, hpv]

/-- Witness for C5: a PUT carrying only a price of 9.99 changes the stored
price to 9.99 and leaves name and user unchanged. -/
theorem c5_witness :
    productDetailPut dbOneProduct 1 ⟨none, some "9.99", none⟩ =
      ({ status := 200,
         body := [("id", JVal.num 1), ("name", JVal.str "Tea"),
                  ("price", JVal.num 999), ("user", JVal.num 1)] },
       updateProduct dbOneProduct ⟨1, "Tea", 999, 1⟩) ∧
    (applyProductBody ⟨1, "Tea", 250, 1⟩ ⟨none, some "9.99", none⟩).name = "Tea" ∧
    (applyProductBody ⟨1, "Tea", 250, 1⟩ ⟨none, some "9.99", none⟩).user = 1 ∧
    (applyProductBody ⟨1, "Tea", 250, 1⟩ ⟨none, some "9.99", none⟩).price = 999 := by
  have h := c5_partial_update dbOneProduct 1 ⟨1, "Tea", 250, 1⟩
    ⟨none, some "9.99", none⟩ (by decide) (by decide)
  exact ⟨h.1, h.2.2.1 rfl, h.2.2.2.2.1 rfl,
    h.2.2.2.2.2.2.2 "9.99" 999 rfl (by decide)⟩

/-- C10: PUT on an existing product with a body that fails serializer
validation returns the field-level errors with status 400 and returns the
store completely unchanged. -/
theorem c10_invalid_put_no_write (db : DB) (pk : Nat) (b : ProductBody)
    (hp : findProduct db pk ≠ none)
    (hv : (productFieldErrors db b false).isEmpty = false) :
    productDetailPut db pk b =
      ({ status := 400, body := errorsToBody (productFieldErrors db b false) },
       db) := by
  cases hf : findProduct db pk with
  | none => exact absurd hf hp
  | some p =>
    unfold productDetailPut
    rw [hf]
    simp [hv]

/-- Witness for C10 at a PUT whose price does not parse as a decimal. -/
theorem c10_witness :
    productDetailPut dbOneProduct 1 ⟨none, some "not-a-number", none⟩ =
      ({ status := 400,
         body := [("price", JVal.str "A valid number is required.")] },
       dbOneProduct) :=
  c10_invalid_put_no_write dbOneProduct 1 ⟨none, some "not-a-number", none⟩
    (by decide) (by decide)

/-- A login operation leaves the sale table alone and only ever appends to
the audit log, whether the handler returns or aborts on a database error. -/
lemma applyOp_userLogin_frame (db : DB) (req : LoginRequest) (now : Nat) :
    (applyOp db (Op.userLogin req now)).sales = db.sales ∧
    ∃ tl, (applyOp db (Op.userLogin req now)).loginLogs = db.loginLogs ++ tl := by
  cases hres : userLoginPost db now req with
  | ok v =>
    obtain ⟨r, db', s⟩ := v
    have hfr := userLoginPost_frame db now req r db' s hres
    have happ : applyOp db (Op.userLogin req now) = db' := by
      simp only [applyOp, hres]
    rw [happ]
    exact ⟨hfr.2.2.1, hfr.2.2.2⟩
  | error e =>
    have happ : applyOp db (Op.userLogin req now) = db := by
      simp only [applyOp, hres]
    rw [happ]
    exact ⟨rfl, ⟨[], (List.append_nil _).symm⟩⟩

/-- No operation rewrites an existing Sale row: the sale table only evolves
by appending new rows at the end or dropping rows to cascade deletion. -/
lemma sales_append_or_drop (db : DB) (op : Op) :
    (∃ tl, (applyOp db op).sales = db.sales ++ tl) ∨
    List.Sublist (applyOp db op).sales db.sales := by
  cases op with
  | userCreate b salt =>
    left
    refine ⟨[], ?_⟩
    simp only [applyOp]
    rw [(userCreatePost_frame db b salt).2.1, List.append_nil]
  | userLogin req now =>
    exact Or.inl ⟨[], by
      rw [(applyOp_userLogin_frame db req now).1, List.append_nil]⟩
  | productList => exact Or.inl ⟨[], (List.append_nil _).symm⟩
  | productCreate b =>
    left
    refine ⟨[], ?_⟩
    simp only [applyOp]
    rw [(productListPost_frame db b).1, List.append_nil]
  | productGet pk => exact Or.inl ⟨[], (List.append_nil _).symm⟩
  | productPut pk b =>
    left
    refine ⟨[], ?_⟩
    simp only [applyOp]
    rw [(productDetailPut_frame db pk b).1, List.append_nil]
  | productDelete pk =>
    rcases (productDetailDelete_frame db pk).1 with h | h
    · left
      refine ⟨[], ?_⟩
      simp only [applyOp]
      rw [h, List.append_nil]
    · right
      simp only [applyOp]
      rw [h]
      exact List.filter_sublist _
  | saleCreate b now =>
    left
    simp only [applyOp]
    exact (saleCreatePost_frame db now b).1
  | saleGet pk => exact Or.inl ⟨[], (List.append_nil _).symm⟩
  | adminDeleteUser pk => exact Or.inr (List.filter_sublist _)
  | adminDeleteSale pk => exact Or.inr (List.filter_sublist _)

/-- C6: the stored sale_date of a created Sale is the server clock at
creation time whatever sale_date value the request body carries, and no
operation of the system ever rewrites an existing Sale row: the sale table
only grows at the end or loses rows to cascade deletion. -/
theorem c6_sale_date_server_assigned :
    (∀ (db : DB) (now : Nat) (b : SaleBody) (pid uid : Nat),
        b.product = some pid → b.user = some uid →
        (saleFieldErrors db b).isEmpty = true →
        (saleCreatePost db now b).snd.sales =
          db.sales ++ [⟨db.nextSaleId, pid, uid, now⟩]) ∧
    (∀ (db : DB) (op : Op),
        (∃ tl, (applyOp db op).sales = db.sales ++ tl) ∨
        List.Sublist (applyOp db op).sales db.sales) := by
  constructor
  · intro db now b pid uid hp hu hv
    unfold saleCreatePost
    rw [hp, hu]
    simp [hv]
  · exact sales_append_or_drop

/-- Witness for C6: a sale-creation request carrying sale_date 1234 stores
the server clock 9 instead. -/
theorem c6_witness :
    (saleCreatePost dbOneProduct 9 ⟨some 1, some 1, some 1234⟩).snd.sales =
      dbOneProduct.sales ++ [⟨1, 1, 1, 9⟩] :=
  c6_sale_date_server_assigned.1 dbOneProduct 9 ⟨some 1, some 1, some 1234⟩ 1 1
    rfl rfl (by decide)

/-- C7: registration stores the credential only as the salted hash produced
by the hasher — the stored user record carries the PasswordHash value built
from the server salt and the submitted credential, not the raw string — and
no serialized output of a User, the registration response included, ever
contains a password field, because the serializer marks the field
write-only. -/
theorem c7_password_hashed_never_serialized :
    (∀ (db : DB) (b : UserCreateBody) (salt : String),
        (findUserByName db b.username).isSome = false →
        (userCreatePost db b salt).snd.users =
          db.users ++
            [⟨db.nextUserId, b.username, PasswordHash.make salt b.password⟩] ∧
        (userCreatePost db b salt).fst =
          { status := 201,
            body := serializeUser
              ⟨db.nextUserId, b.username, PasswordHash.make salt b.password⟩ }) ∧
    (∀ (u : UserRec) (kv : String × JVal), kv ∈ serializeUser u →
        kv.fst ≠ "password") := by
  constructor
  · intro db b salt h
    constructor
    · unfold userCreatePost
      simp [h]
    · unfold userCreatePost
      simp [h]
  · intro u kv hkv
    have hcases : kv = ("id", JVal.num u.id) ∨
        kv = ("username", JVal.str u.username) := by
      simpa [serializeUser] using hkv
    rcases hcases with h | h <;> rw [h]
    · exact fun hc => (show ("id" : String) ≠ "password" by decide) hc
    · exact fun hc => (show ("username" : String) ≠ "password" by decide) hc

/-- Witness for C7 at a concrete registration. -/
theorem c7_witness :
    (userCreatePost dbOneUser ⟨"bob", "secret"⟩ "s9").snd.users =
      dbOneUser.users ++ [⟨2, "bob", PasswordHash.make "s9" "secret"⟩] ∧
    (userCreatePost dbOneUser ⟨"bob", "secret"⟩ "s9").fst =
      { status := 201,
        body := [("id", JVal.num 2), ("username", JVal.str "bob")] } ∧
    ("password", JVal.str "secret") ∉
      serializeUser ⟨2, "bob", PasswordHash.make "s9" "secret"⟩ := by
  have h := c7_password_hashed_never_serialized.1 dbOneUser ⟨"bob", "secret"⟩ "s9"
    (by decide)
  refine ⟨h.1, h.2, ?_⟩
  intro hmem
  exact c7_password_hashed_never_serialized.2 _ _ hmem rfl

/-- C8: creating a valid product and GET-ing it by the returned id yields
exactly the submitted name, price and user (the price as the parsed decimal
value of the submitted string). The freshness hypothesis states that the
autoincrement key is unused, which the persistence layer guarantees. -/
theorem c8_create_then_get (db : DB) (b : ProductBody) (n : String)
    (prs : String) (pr : Int) (u : Nat)
    (hn : b.name = some n) (hps : b.price = some prs)
    (hpr : parsePrice prs = some pr) (hu : b.user = some u)
    (hv : (productFieldErrors db b true).isEmpty = true)
    (hfresh : findProduct db db.nextProductId = none) :
    (productListPost db b).fst.status = 201 ∧
    productDetailGet (productListPost db b).snd db.nextProductId =
      { status := 200,
        body := [("id", JVal.num db.nextProductId), ("name", JVal.str n),
                 ("price", JVal.num pr), ("user", JVal.num u)] } := by
  have hcreate : productListPost db b =
      ({ status := 201, body := serializeProduct ⟨db.nextProductId, n, pr, u⟩ },
       { db with products := db.products ++ [⟨db.nextProductId, n, pr, u⟩],
                 nextProductId := db.nextProductId + 1 }) := by
    unfold productListPost
    rw [hn, hps, hu]
    simp [hpr, hv]
  constructor
  · rw [hcreate]
  · rw [hcreate]
    unfold productDetailGet
    have hfind : findProduct
        { db with products := db.products ++ [⟨db.nextProductId, n, pr, u⟩],
                  nextProductId := db.nextProductId + 1 } db.nextProductId =
        some ⟨db.nextProductId, n, pr, u⟩ := by
      unfold findProduct
      exact find?_id_append_fresh db.products db.nextProductId _ hfresh (by simp)
    rw [hfind]
    rfl

/-- Witness for C8: creating Tea at 9.99 for user 1 and reading id 1 back. -/
theorem c8_witness :
    (productListPost dbOneUser ⟨some "Tea", some "9.99", some 1⟩).fst.status
      = 201 ∧
    productDetailGet
      (productListPost dbOneUser ⟨some "Tea", some "9.99", some 1⟩).snd 1 =
      { status := 200,
        body := [("id", JVal.num 1), ("name", JVal.str "Tea"),
                 ("price", JVal.num 999), ("user", JVal.num 1)] } :=
  c8_create_then_get dbOneUser ⟨some "Tea", some "9.99", some 1⟩ "Tea" "9.99"
    999 1 rfl rfl (by decide) rfl (by decide) rfl

/-- C9 counterexample: with one audit row referencing user 1, deleting that
user cascades and the audit row disappears, so LoginLog rows are not immune
to every operation of the system as the claim states. -/
theorem c9_user_delete_removes_log_row :
    dbOneLog.loginLogs ≠ [] ∧
    (applyOp dbOneLog (Op.adminDeleteUser 1)).loginLogs = [] :=
  ⟨by decide, rfl⟩

/-- The audit log only ever grows, except under a user deletion. -/
lemma loginLogs_append_unless_user_delete (db : DB) (op : Op)
    (h : ∀ uid, op ≠ Op.adminDeleteUser uid) :
    ∃ tl, (applyOp db op).loginLogs = db.loginLogs ++ tl := by
  cases op with
  | userCreate b salt =>
    refine ⟨[], ?_⟩
    simp only [applyOp]
    rw [(userCreatePost_frame db b salt).2.2, List.append_nil]
  | userLogin req now => exact (applyOp_userLogin_frame db req now).2
  | productList => exact ⟨[], (List.append_nil _).symm⟩
  | productCreate b =>
    refine ⟨[], ?_⟩
    simp only [applyOp]
    rw [(productListPost_frame db b).2.1, List.append_nil]
  | productGet pk => exact ⟨[], (List.append_nil _).symm⟩
  | productPut pk b =>
    refine ⟨[], ?_⟩
    simp only [applyOp]
    rw [(productDetailPut_frame db pk b).2.1, List.append_nil]
  | productDelete pk =>
    refine ⟨[], ?_⟩
    simp only [applyOp]
    rw [(productDetailDelete_frame db pk).2, List.append_nil]
  | saleCreate b now =>
    refine ⟨[], ?_⟩
    simp only [applyOp]
    rw [(saleCreatePost_frame db now b).2, List.append_nil]
  | saleGet pk => exact ⟨[], (List.append_nil _).symm⟩
  | adminDeleteUser pk => exact absurd rfl (h pk)
  | adminDeleteSale pk => exact ⟨[], (List.append_nil _).symm⟩

/-- C9 amended: LoginLog rows are never updated, and no operation removes
them except deleting a User, which cascades deletion of exactly the audit
rows referencing that user; deleting a Product or a Sale leaves the audit
log untouched. -/
theorem c9_append_only_except_user_cascade (db : DB) :
    (∀ op : Op, (∀ uid, op ≠ Op.adminDeleteUser uid) →
        ∃ tl, (applyOp db op).loginLogs = db.loginLogs ++ tl) ∧
    (∀ uid, (applyOp db (Op.adminDeleteUser uid)).loginLogs =
        db.loginLogs.filter (fun l => !(l.user == some uid))) :=
  ⟨fun op h => loginLogs_append_unless_user_delete db op h, fun _ => rfl⟩

/-- Witness for C9 at a concrete store: a product read leaves the audit log
alone and deleting user 1 filters the log by that user. -/
theorem c9_witness :
    (∃ tl, (applyOp dbOneLog (Op.productGet 1)).loginLogs =
        dbOneLog.loginLogs ++ tl) ∧
    (applyOp dbOneLog (Op.adminDeleteUser 1)).loginLogs =
      dbOneLog.loginLogs.filter (fun l => !(l.user == some 1)) :=
  ⟨(c9_append_only_except_user_cascade dbOneLog).1 (Op.productGet 1)
      (fun _ h => Op.noConfusion h),
   (c9_append_only_except_user_cascade dbOneLog).2 1⟩

end Shop
